import Mathlib

/-!
Shallow embedding of the Jobly data-access layer.

JavaScript objects that carry request payloads are embedded as ordered
association lists (`List (String × Val)`): insertion order of the object
is the iteration order of `Object.keys` / `Object.values`.  Field-mapping
tables (`jsToSql`) are association lists `List (String × String)`.
Database rows are Lean structures; SQL round trips are modelled as pure
operations on an explicit `DB` state, one operation per `db.query` call,
following standard SQL semantics for the fixed statements the code emits.
Statement text is embedded with whitespace normalised to single spaces.
-/

/-- JavaScript values that flow through the data layer: strings, numbers
(the repository only uses integers), booleans, SQL NULL, JS undefined and
nested row objects. -/
inductive Val where
  | vNull : Val
  | vUndef : Val
  | vStr : String → Val
  | vInt : Int → Val
  | vBool : Bool → Val
  | vObj : List (String × Val) → Val

/-- Error classes thrown by the repository code.  The source throws
`BadRequestError`, `NotFoundError` and `UnauthorizedError` (all defined in
the expressError module).  `conflictError` is Modelled from the spec: the
spec error taxonomy (section 7) names a distinct Conflict outcome for
duplicate identities; no such class appears anywhere in the source, which
uses `BadRequestError` for duplicates. -/
inductive JoblyError where
  | badRequestError : String → JoblyError
  | notFoundError : String → JoblyError
  | unauthorizedError : String → JoblyError
  | conflictError : String → JoblyError
deriving DecidableEq

/-- Discriminator for the spec-modelled Conflict class. -/
def JoblyError.isConflict : JoblyError → Bool
  | JoblyError.conflictError _ => true
  | _ => false

/-- True when a repository result is a failure carrying a Conflict-class
error. -/
def failsWithConflict {α : Type} : Except JoblyError α → Bool
  | Except.error e => e.isConflict
  | Except.ok _ => false

/-- Result record of sqlForPartialUpdate: the SET fragment and the
positionally matched parameter values. -/
structure SqlUpdate where
  setCols : String
  values : List Val

/-- Field Mapper, embedded from `jsToSql[colName] || colName`
(src/helpers/sql.js line 18).  JS property lookup on the mapping object is
`List.lookup`; the JS `||` falls back to `colName` both when the key is
absent (lookup yields undefined) and when the mapped value is the empty
string (the only falsy string). -/
def jsLookupOr (jsToSql : List (String × String)) (colName : String) : String :=
  match jsToSql.lookup colName with
  | some v => if v = "" then colName else v
  | none => colName

/-- Embeds sqlForPartialUpdate (src/helpers/sql.js lines 9-27): empty
payload throws BadRequestError "No data"; otherwise each key becomes
`"<mapped column>"=$<idx+1>` and the values are echoed in order. -/
def sqlForPartialUpdate (dataToUpdate : List (String × Val))
    (jsToSql : List (String × String)) : Except JoblyError SqlUpdate :=
  let keys := dataToUpdate.map Prod.fst
  if keys.length = 0 then
    Except.error (JoblyError.badRequestError "No data")
  else
    let cols := keys.enum.map
      (fun p => "\"" ++ jsLookupOr jsToSql p.2 ++ "\"=$" ++ toString (p.1 + 1))
    Except.ok { setCols := String.intercalate ", " cols,
                values := dataToUpdate.map Prod.snd }

/-- Row of the companies table. -/
structure CompanyRow where
  handle : String
  name : String
  description : String
  numEmployees : Option Int
  logoUrl : Option String

/-- Row of the jobs table. -/
structure JobRow where
  id : Int
  title : String
  salary : Option Int
  equity : Option String
  companyHandle : String

/-- Row of the users table (password holds the stored hash). -/
structure UserRow where
  username : String
  password : String
  firstName : String
  lastName : String
  email : String
  isAdmin : Bool

/-- Database state: the four relations.  An application row is a
(job_id, username) pair, kept in insertion order. -/
structure DB where
  companies : List CompanyRow
  jobs : List JobRow
  users : List UserRow
  applications : List (Int × String)

/-- Nullable integer column rendered as a JS value. -/
def optIntVal : Option Int → Val
  | some n => Val.vInt n
  | none => Val.vNull

/-- Nullable text column rendered as a JS value. -/
def optStrVal : Option String → Val
  | some s => Val.vStr s
  | none => Val.vNull

/-- Company record as selected by the companies statements
(`RETURNING/SELECT handle, name, description, num_employees AS
"numEmployees", logo_url AS "logoUrl"`). -/
def companyRecord (r : CompanyRow) : List (String × Val) :=
  [("handle", Val.vStr r.handle), ("name", Val.vStr r.name),
   ("description", Val.vStr r.description),
   ("numEmployees", optIntVal r.numEmployees),
   ("logoUrl", optStrVal r.logoUrl)]

/-- Job record as selected by the jobs statements (`RETURNING/SELECT id,
title, salary, equity, company_handle AS "companyHandle"`). -/
def jobRecord (r : JobRow) : List (String × Val) :=
  [("id", Val.vInt r.id), ("title", Val.vStr r.title),
   ("salary", optIntVal r.salary), ("equity", optStrVal r.equity),
   ("companyHandle", Val.vStr r.companyHandle)]

/-- User record as selected by register/update (`RETURNING username,
first_name AS "firstName", last_name AS "lastName", email, is_admin AS
"isAdmin"`): the password column is not selected. -/
def userPublicRecord (r : UserRow) : List (String × Val) :=
  [("username", Val.vStr r.username), ("firstName", Val.vStr r.firstName),
   ("lastName", Val.vStr r.lastName), ("email", Val.vStr r.email),
   ("isAdmin", Val.vBool r.isAdmin)]

/-- User record as selected by authenticate, password column included
(`SELECT username, password, first_name AS "firstName", last_name AS
"lastName", email, is_admin AS "isAdmin"`). -/
def userFullRecord (r : UserRow) : List (String × Val) :=
  [("username", Val.vStr r.username), ("password", Val.vStr r.password),
   ("firstName", Val.vStr r.firstName), ("lastName", Val.vStr r.lastName),
   ("email", Val.vStr r.email), ("isAdmin", Val.vBool r.isAdmin)]

/-- Payload of Company.create. -/
structure CompanyData where
  handle : String
  name : String
  description : String
  numEmployees : Option Int
  logoUrl : Option String

/-- Payload of User.register. -/
structure RegisterData where
  username : String
  password : String
  firstName : String
  lastName : String
  email : String
  isAdmin : Bool

/-- Embeds Company.create: duplicate-handle probe
(`SELECT handle FROM companies WHERE handle = $1`), then the insert.  The
pair holds the operation result and the database state after the call: on
the duplicate path the state is returned untouched because the throw
happens before the INSERT round trip. -/
def Company.create (data : CompanyData) (db : DB) :
    Except JoblyError (List (String × Val)) × DB :=
  match db.companies.find? (fun r => r.handle == data.handle) with
  | some _ =>
    (Except.error (JoblyError.badRequestError ("Duplicate company: " ++ data.handle)), db)
  | none =>
    let row : CompanyRow :=
      { handle := data.handle, name := data.name, description := data.description,
        numEmployees := data.numEmployees, logoUrl := data.logoUrl }
    (Except.ok (companyRecord row), { db with companies := db.companies ++ [row] })

/-- Embeds User.register: duplicate-username probe, then
`bcrypt.hash(password, BCRYPT_WORK_FACTOR)`, then the insert.  Modelled
from the spec: the one-way secret-hashing collaborator (bcrypt, external
to the repository) is represented by the injected function `hash`. -/
def User.register (hash : String → String) (data : RegisterData) (db : DB) :
    Except JoblyError (List (String × Val)) × DB :=
  match db.users.find? (fun u => u.username == data.username) with
  | some _ =>
    (Except.error (JoblyError.badRequestError ("Duplicate username: " ++ data.username)), db)
  | none =>
    let hashedPassword := hash data.password
    let row : UserRow :=
      { username := data.username, password := hashedPassword,
        firstName := data.firstName, lastName := data.lastName,
        email := data.email, isAdmin := data.isAdmin }
    (Except.ok (userPublicRecord row), { db with users := db.users ++ [row] })

/-- Filter criteria of Company.findAll, after the route layer has
converted the bounds to numbers. -/
structure CompanyCriteria where
  minEmployees : Option Int
  maxEmployees : Option Int
  name : Option String

/-- JS `minEmployees > maxEmployees`: a numeric comparison that is false
whenever either side is undefined. -/
def jsNumGt : Option Int → Option Int → Bool
  | some a, some b => decide (b < a)
  | _, _ => false

/-- JS truthiness of an optional string (`if (name)`): false for undefined
and for the empty string. -/
def jsStrTruthy : Option String → Bool
  | some s => !(s == "")
  | none => false

/-- Case-insensitive substring match: the ILIKE pattern that wraps the supplied substring in percent wildcards on both sides. -/
def ilikeContains (column pat : String) : Bool :=
  (column.toLower.toList.tails).any (fun t => pat.toLower.toList.isPrefixOf t)

/-- Embeds Company.findAll lines 61-119 up to the statement handed to the
driver: the range-consistency check runs first, then each present
criterion pushes one WHERE expression (and its parameter, numbered by the
current parameter count), then the fragment is assembled. -/
def Company.findAllStatement (c : CompanyCriteria) :
    Except JoblyError (String × List Val) :=
  let base := "SELECT handle, name, description, num_employees AS \"numEmployees\", logo_url AS \"logoUrl\" FROM companies"
  if jsNumGt c.minEmployees c.maxEmployees then
    Except.error (JoblyError.badRequestError "Min employees cannot be greater than max employees")
  else
    let whereExpressions : List String := []
    let queryValues : List Val := []
    let (whereExpressions, queryValues) :=
      match c.minEmployees with
      | some m => (whereExpressions ++ ["num_employees >= $" ++ toString (queryValues.length + 1)],
                   queryValues ++ [Val.vInt m])
      | none => (whereExpressions, queryValues)
    let (whereExpressions, queryValues) :=
      match c.maxEmployees with
      | some m => (whereExpressions ++ ["num_employees <= $" ++ toString (queryValues.length + 1)],
                   queryValues ++ [Val.vInt m])
      | none => (whereExpressions, queryValues)
    let (whereExpressions, queryValues) :=
      if jsStrTruthy c.name then
        (whereExpressions ++ ["name ILIKE $" ++ toString (queryValues.length + 1)],
         queryValues ++ [Val.vStr ("%" ++ (c.name.getD "") ++ "%")])
      else (whereExpressions, queryValues)
    let query :=
      if whereExpressions.length > 0 then
        base ++ " WHERE " ++ String.intercalate " AND " whereExpressions
      else base
    Except.ok (query ++ " ORDER BY name", queryValues)

/-- SQL semantics of the WHERE fragment Company.findAll builds: a company
row satisfies every present predicate (NULL num_employees fails a numeric
comparison, as in SQL). -/
def companyMatches (c : CompanyCriteria) (r : CompanyRow) : Bool :=
  (match c.minEmployees with
   | some m => match r.numEmployees with
     | some n => decide (m ≤ n)
     | none => false
   | none => true) &&
  (match c.maxEmployees with
   | some m => match r.numEmployees with
     | some n => decide (n ≤ m)
     | none => false
   | none => true) &&
  (if jsStrTruthy c.name then ilikeContains r.name (c.name.getD "") else true)

/-- Insertion step of the ORDER BY name sort. -/
def insertByName (r : CompanyRow) : List CompanyRow → List CompanyRow
  | [] => [r]
  | x :: xs => if r.name ≤ x.name then r :: x :: xs else x :: insertByName r xs

/-- ORDER BY name, modelled as an insertion sort on the name column. -/
def orderByName : List CompanyRow → List CompanyRow
  | [] => []
  | x :: xs => insertByName x (orderByName xs)

/-- Embeds Company.findAll end to end: the statement is built (failing
with BadRequestError on an inconsistent range before any round trip) and
then run against the companies table. -/
def Company.findAll (c : CompanyCriteria) (db : DB) :
    Except JoblyError (List (List (String × Val))) :=
  match Company.findAllStatement c with
  | Except.error e => Except.error e
  | Except.ok _ =>
    Except.ok ((orderByName (db.companies.filter (companyMatches c))).map companyRecord)

/-- Filter criteria of Job.findAll, after the route layer has converted
minSalary to a number and hasEquity to a boolean. -/
structure JobCriteria where
  minSalary : Option Int
  hasEquity : Option Bool
  title : Option String

/-- Embeds the filter-accumulation portion of Job.findAll (lines 72-91):
minSalary present pushes one predicate and one parameter; hasEquity pushes
the parameterless predicate only under strict `=== true`; a truthy title
pushes one pattern predicate and one parameter.  Returns the
whereExpressions and queryValues arrays. -/
def Job.findAllFilters (c : JobCriteria) : List String × List Val :=
  let whereExpressions : List String := []
  let queryValues : List Val := []
  let (whereExpressions, queryValues) :=
    match c.minSalary with
    | some m => (whereExpressions ++ ["salary >= $" ++ toString (queryValues.length + 1)],
                 queryValues ++ [Val.vInt m])
    | none => (whereExpressions, queryValues)
  let (whereExpressions, queryValues) :=
    if c.hasEquity == some true then (whereExpressions ++ ["equity > 0"], queryValues)
    else (whereExpressions, queryValues)
  let (whereExpressions, queryValues) :=
    if jsStrTruthy c.title then
      (whereExpressions ++ ["title ILIKE $" ++ toString (queryValues.length + 1)],
       queryValues ++ [Val.vStr ("%" ++ (c.title.getD "") ++ "%")])
    else (whereExpressions, queryValues)
  (whereExpressions, queryValues)

/-- Embeds the rest of Job.findAll: the joined SELECT, the optional WHERE
fragment and the ORDER BY id suffix, around the accumulated filters. -/
def Job.findAllStatement (c : JobCriteria) : String × List Val :=
  let base := "SELECT j.id, j.title, j.salary, j.equity, j.company_handle AS \"companyHandle\", c.name AS \"companyName\" FROM jobs j LEFT JOIN companies AS c ON c.handle = j.company_handle"
  let (whereExpressions, queryValues) := Job.findAllFilters c
  let query :=
    if whereExpressions.length > 0 then
      base ++ " WHERE " ++ String.intercalate " AND " whereExpressions
    else base
  (query ++ " ORDER BY id", queryValues)

/-- Mapping table passed by User.update (and the one user routes rely on). -/
def userJsToSql : List (String × String) :=
  [("firstName", "first_name"), ("lastName", "last_name"), ("isAdmin", "is_admin")]

/-- Mapping table passed by Company.update. -/
def companyJsToSql : List (String × String) :=
  [("numEmployees", "num_employees"), ("logoUrl", "logo_url")]

/-- Mapping table passed by Job.update: the empty object. -/
def jobJsToSql : List (String × String) := []

/-- JS property read on a payload object: undefined when absent. -/
def jsGet (obj : List (String × Val)) (k : String) : Val :=
  match obj.lookup k with
  | some v => v
  | none => Val.vUndef

/-- JS truthiness of a value. -/
def jsTruthy : Val → Bool
  | Val.vNull => false
  | Val.vUndef => false
  | Val.vStr s => !(s == "")
  | Val.vInt n => !(n == 0)
  | Val.vBool b => b
  | Val.vObj _ => true

/-- JS string coercion, used only as the argument of the hash function. -/
def valToJsString : Val → String
  | Val.vStr s => s
  | Val.vInt n => toString n
  | Val.vBool true => "true"
  | Val.vBool false => "false"
  | Val.vNull => "null"
  | Val.vUndef => "undefined"
  | Val.vObj _ => "[object Object]"

/-- Embeds the password prelude of User.update: `if (data.password)
data.password = await bcrypt.hash(data.password, ...)`.  Modelled from the
spec: bcrypt is the external one-way hashing collaborator, injected as
`hash`. -/
def userHashData (hash : String → String) (data : List (String × Val)) :
    List (String × Val) :=
  if jsTruthy (jsGet data "password") then
    data.map (fun kv =>
      if kv.1 == "password" then (kv.1, Val.vStr (hash (valToJsString kv.2))) else kv)
  else data

/-- SQL UPDATE SET semantics for one jobs-table assignment; assignments
whose column or value type does not fit the table would be rejected by the
database and never arise in the modelled paths. -/
def setJobField (r : JobRow) (kv : String × Val) : JobRow :=
  match kv with
  | ("id", Val.vInt i) => { r with id := i }
  | ("title", Val.vStr s) => { r with title := s }
  | ("salary", Val.vInt n) => { r with salary := some n }
  | ("salary", Val.vNull) => { r with salary := none }
  | ("equity", Val.vStr e) => { r with equity := some e }
  | ("equity", Val.vNull) => { r with equity := none }
  | ("company_handle", Val.vStr h) => { r with companyHandle := h }
  | _ => r

/-- SQL UPDATE SET semantics for one companies-table assignment. -/
def setCompanyField (r : CompanyRow) (kv : String × Val) : CompanyRow :=
  match kv with
  | ("handle", Val.vStr h) => { r with handle := h }
  | ("name", Val.vStr s) => { r with name := s }
  | ("description", Val.vStr s) => { r with description := s }
  | ("num_employees", Val.vInt n) => { r with numEmployees := some n }
  | ("num_employees", Val.vNull) => { r with numEmployees := none }
  | ("logo_url", Val.vStr s) => { r with logoUrl := some s }
  | ("logo_url", Val.vNull) => { r with logoUrl := none }
  | _ => r

/-- SQL UPDATE SET semantics for one users-table assignment. -/
def setUserField (r : UserRow) (kv : String × Val) : UserRow :=
  match kv with
  | ("username", Val.vStr s) => { r with username := s }
  | ("password", Val.vStr s) => { r with password := s }
  | ("first_name", Val.vStr s) => { r with firstName := s }
  | ("last_name", Val.vStr s) => { r with lastName := s }
  | ("email", Val.vStr s) => { r with email := s }
  | ("is_admin", Val.vBool b) => { r with isAdmin := b }
  | _ => r

/-- Statement text of Job.update (lines 235-242), whitespace normalised. -/
def jobUpdateQuerySql (setCols idVarIdx : String) : String :=
  "UPDATE jobs SET " ++ setCols ++ " WHERE id = " ++ idVarIdx ++
    " RETURNING id, title, salary, equity, company_handle AS \"companyHandle\""

/-- Statement text of Company.update (lines 224-231). -/
def companyUpdateQuerySql (setCols handleVarIdx : String) : String :=
  "UPDATE companies SET " ++ setCols ++ " WHERE handle = " ++ handleVarIdx ++
    " RETURNING handle, name, description, num_employees AS \"numEmployees\", logo_url AS \"logoUrl\""

/-- Statement text of User.update (lines 215-222). -/
def userUpdateQuerySql (setCols usernameVarIdx : String) : String :=
  "UPDATE users SET " ++ setCols ++ " WHERE username = " ++ usernameVarIdx ++
    " RETURNING username, first_name AS \"firstName\", last_name AS \"lastName\", email, is_admin AS \"isAdmin\""

/-- Statement and bound parameters Job.update hands to the driver: the SET
fragment from the builder, the id predicate at placeholder
values.length + 1, and the parameter list [...values, id]. -/
def Job.updateStatement (id : Int) (data : List (String × Val)) :
    Except JoblyError (String × List Val) :=
  match sqlForPartialUpdate data jobJsToSql with
  | Except.error e => Except.error e
  | Except.ok u =>
    let idVarIdx := "$" ++ toString (u.values.length + 1)
    Except.ok (jobUpdateQuerySql u.setCols idVarIdx, u.values ++ [Val.vInt id])

/-- Statement and bound parameters of Company.update. -/
def Company.updateStatement (handle : String) (data : List (String × Val)) :
    Except JoblyError (String × List Val) :=
  match sqlForPartialUpdate data companyJsToSql with
  | Except.error e => Except.error e
  | Except.ok u =>
    let handleVarIdx := "$" ++ toString (u.values.length + 1)
    Except.ok (companyUpdateQuerySql u.setCols handleVarIdx, u.values ++ [Val.vStr handle])

/-- Statement and bound parameters of User.update, after the password
prelude. -/
def User.updateStatement (hash : String → String) (username : String)
    (data : List (String × Val)) : Except JoblyError (String × List Val) :=
  let data2 := userHashData hash data
  match sqlForPartialUpdate data2 userJsToSql with
  | Except.error e => Except.error e
  | Except.ok u =>
    let usernameVarIdx := "$" ++ toString (u.values.length + 1)
    Except.ok (userUpdateQuerySql u.setCols usernameVarIdx, u.values ++ [Val.vStr username])

/-- Embeds Job.update end to end: builder (propagating its BadRequestError
on an empty payload), then the update-returning statement on the jobs
table, NotFoundError when no row matches the id predicate. -/
def Job.update (id : Int) (data : List (String × Val)) (db : DB) :
    Except JoblyError (List (String × Val)) × DB :=
  match sqlForPartialUpdate data jobJsToSql with
  | Except.error e => (Except.error e, db)
  | Except.ok _ =>
    let mapped := data.map (fun kv => (jsLookupOr jobJsToSql kv.1, kv.2))
    match db.jobs.filter (fun r => r.id == id) with
    | [] => (Except.error (JoblyError.notFoundError ("No job: " ++ toString id)), db)
    | r :: _ =>
      (Except.ok (jobRecord (mapped.foldl setJobField r)),
       { db with jobs := (db.jobs.map
           (fun r2 => if r2.id == id then mapped.foldl setJobField r2 else r2)) })

/-- Embeds Company.update end to end. -/
def Company.update (handle : String) (data : List (String × Val)) (db : DB) :
    Except JoblyError (List (String × Val)) × DB :=
  match sqlForPartialUpdate data companyJsToSql with
  | Except.error e => (Except.error e, db)
  | Except.ok _ =>
    let mapped := data.map (fun kv => (jsLookupOr companyJsToSql kv.1, kv.2))
    match db.companies.filter (fun r => r.handle == handle) with
    | [] => (Except.error (JoblyError.notFoundError ("No company: " ++ handle)), db)
    | r :: _ =>
      (Except.ok (companyRecord (mapped.foldl setCompanyField r)),
       { db with companies := (db.companies.map
           (fun r2 => if r2.handle == handle then mapped.foldl setCompanyField r2 else r2)) })

/-- Embeds User.update end to end: password prelude, builder, statement,
NotFoundError on zero matches, `delete user.password` on the returned
record. -/
def User.update (hash : String → String) (username : String)
    (data : List (String × Val)) (db : DB) :
    Except JoblyError (List (String × Val)) × DB :=
  let data2 := userHashData hash data
  match sqlForPartialUpdate data2 userJsToSql with
  | Except.error e => (Except.error e, db)
  | Except.ok _ =>
    let mapped := data2.map (fun kv => (jsLookupOr userJsToSql kv.1, kv.2))
    match db.users.filter (fun r => r.username == username) with
    | [] => (Except.error (JoblyError.notFoundError ("No user: " ++ username)), db)
    | r :: _ =>
      (Except.ok ((userPublicRecord (mapped.foldl setUserField r)).filter
          (fun kv => !(kv.1 == "password"))),
       { db with users := (db.users.map
           (fun r2 => if r2.username == username then mapped.foldl setUserField r2 else r2)) })

/-- Embeds User.applyToJob (part_000 lines 255-281): posting existence
probe, then account existence probe, then the unconditional INSERT into
applications.  The pair carries the operation outcome and the database
state after the call; a throw aborts before the insert, leaving the state
untouched. -/
def User.applyToJob (username : String) (jobId : Int) (db : DB) :
    Except JoblyError Unit × DB :=
  match db.jobs.find? (fun r => r.id == jobId) with
  | none => (Except.error (JoblyError.notFoundError ("No job: " ++ toString jobId)), db)
  | some _ =>
    match db.users.find? (fun u => u.username == username) with
    | none => (Except.error (JoblyError.notFoundError ("No username: " ++ username)), db)
    | some _ =>
      (Except.ok (), { db with applications := db.applications ++ [(jobId, username)] })

/-- Embeds User.authenticate (part_000 lines 24-52): select the row with
the password column included, compare the supplied secret against the
stored hash (bcrypt.compare, modelled through the injected hash function),
delete the password property on success, throw UnauthorizedError on a
missing user or a failed comparison. -/
def User.authenticate (hash : String → String) (username password : String)
    (db : DB) : Except JoblyError (List (String × Val)) :=
  match db.users.find? (fun u => u.username == username) with
  | some u =>
    if u.password == hash password then
      Except.ok ((userFullRecord u).filter (fun kv => !(kv.1 == "password")))
    else
      Except.error (JoblyError.unauthorizedError "Invalid username/password")
  | none => Except.error (JoblyError.unauthorizedError "Invalid username/password")

/-- Embeds Job.get (src/models/job.js lines 159-207): primary read of the
job row (NotFoundError when absent), secondary read of the companies table
by the company handle of the row, `delete job.companyHandle`, and the
company property set to the first secondary-read row (undefined when the
secondary read returns no row). -/
def Job.get (id : Int) (db : DB) : Except JoblyError (List (String × Val)) :=
  match db.jobs.find? (fun r => r.id == id) with
  | none => Except.error (JoblyError.notFoundError ("No job: " ++ toString id))
  | some j =>
    let jobRec := jobRecord j
    let companyRows := (db.companies.filter (fun c => c.handle == j.companyHandle)).map companyRecord
    let jobRec2 := jobRec.filter (fun kv => !(kv.1 == "companyHandle"))
    let company :=
      match companyRows.head? with
      | some cr => Val.vObj cr
      | none => Val.vUndef
    Except.ok (jobRec2 ++ [("company", company)])

/-- C1: for every non-empty payload the builder emits exactly one
assignment per entry, `"<mapped column>"=$<1-based position>`, joined with
", "; the values list echoes the raw entry values in order; and the
fragment text is a function of the keys alone, so no value ever appears in
it. -/
theorem sqlForPartialUpdate_nonempty_spec
    (data : List (String × Val)) (tbl : List (String × String))
    (h : data ≠ []) :
    sqlForPartialUpdate data tbl =
      Except.ok
        { setCols := String.intercalate ", "
            ((data.map Prod.fst).enum.map
              (fun p => "\"" ++ jsLookupOr tbl p.2 ++ "\"=$" ++ toString (p.1 + 1))),
          values := data.map Prod.snd } ∧
    (∀ (data2 : List (String × Val)) (u u2 : SqlUpdate),
      data2.map Prod.fst = data.map Prod.fst →
      sqlForPartialUpdate data tbl = Except.ok u →
      sqlForPartialUpdate data2 tbl = Except.ok u2 →
      u2.setCols = u.setCols) := by
  have hlen : (data.map Prod.fst).length ≠ 0 := by
    simpa [List.length_eq_zero, List.map_eq_nil_iff] using h
  constructor
  · simp only [sqlForPartialUpdate]
    rw [if_neg hlen]
  · intro data2 u u2 hkeys hu hu2
    simp only [sqlForPartialUpdate] at hu hu2
    rw [if_neg hlen] at hu
    rw [hkeys, if_neg hlen] at hu2
    injection hu with hu
    injection hu2 with hu2
    rw [← hu, ← hu2]

/-- Witness for C1 at a concrete two-field payload. -/
theorem sqlForPartialUpdate_nonempty_spec_witness :
    sqlForPartialUpdate
        [("firstName", Val.vStr "Percy"), ("age", Val.vInt 7)]
        [("firstName", "first_name")] =
      Except.ok
        { setCols := String.intercalate ", "
            (([("firstName", Val.vStr "Percy"), ("age", Val.vInt 7)].map Prod.fst).enum.map
              (fun p => "\"" ++ jsLookupOr [("firstName", "first_name")] p.2 ++ "\"=$" ++ toString (p.1 + 1))),
          values := [Val.vStr "Percy", Val.vInt 7] } :=
  (sqlForPartialUpdate_nonempty_spec
    [("firstName", Val.vStr "Percy"), ("age", Val.vInt 7)]
    [("firstName", "first_name")] (by simp)).1

/-- C3: an empty payload is rejected with BadRequestError "No data" for
every mapping table; no fragment is produced. -/
theorem sqlForPartialUpdate_empty_rejected (tbl : List (String × String)) :
    sqlForPartialUpdate [] tbl =
      Except.error (JoblyError.badRequestError "No data") := by
  simp [sqlForPartialUpdate]

/-- C4 counterexample: the mapping table [("f", "")] has "f" as a key with
value "", yet the emitted column is "f", not the table value "": the JS
`||` fallback also fires on an empty-string mapping value. -/
theorem fieldMapper_table_value_counterexample :
    ([("f", "")] : List (String × String)).lookup "f" = some "" ∧
    sqlForPartialUpdate [("f", Val.vStr "v")] [("f", "")] =
      Except.ok { setCols := "\"f\"=$1", values := [Val.vStr "v"] } ∧
    ("\"f\"=$1" : String) ≠ "\"\"=$1" := by
  refine ⟨rfl, ?_, by decide⟩
  simp [sqlForPartialUpdate, jsLookupOr, List.enum, String.intercalate,
    String.intercalate.go]
  rfl

/-- C4 amended: the emitted column name is the table value when the field
name is a key of the table mapped to a non-empty value; when the key is
absent, or mapped to the empty string (which the JS `||` treats as
missing), the external field name itself is emitted. -/
theorem fieldMapper_spec (tbl : List (String × String)) (k c : String) (v : Val) :
    (tbl.lookup k = some c → c ≠ "" →
      sqlForPartialUpdate [(k, v)] tbl =
        Except.ok { setCols := "\"" ++ c ++ "\"=$1", values := [v] }) ∧
    (tbl.lookup k = some "" →
      sqlForPartialUpdate [(k, v)] tbl =
        Except.ok { setCols := "\"" ++ k ++ "\"=$1", values := [v] }) ∧
    (tbl.lookup k = none →
      sqlForPartialUpdate [(k, v)] tbl =
        Except.ok { setCols := "\"" ++ k ++ "\"=$1", values := [v] }) := by
  refine ⟨fun hl hc => ?_, fun hl => ?_, fun hl => ?_⟩
  · simp [sqlForPartialUpdate, jsLookupOr, List.enum, hl, hc, String.intercalate,
      String.intercalate.go, String.append_assoc]
    rfl
  · simp [sqlForPartialUpdate, jsLookupOr, List.enum, hl, String.intercalate,
      String.intercalate.go, String.append_assoc]
    rfl
  · simp [sqlForPartialUpdate, jsLookupOr, List.enum, hl, String.intercalate,
      String.intercalate.go, String.append_assoc]
    rfl

/-- Witness for C4 amended: all three branches at concrete inputs. -/
theorem fieldMapper_spec_witness :
    sqlForPartialUpdate [("firstName", Val.vStr "P")] [("firstName", "first_name")] =
      Except.ok { setCols := "\"first_name\"=$1", values := [Val.vStr "P"] } ∧
    sqlForPartialUpdate [("f", Val.vStr "v")] [("f", "")] =
      Except.ok { setCols := "\"f\"=$1", values := [Val.vStr "v"] } ∧
    sqlForPartialUpdate [("email", Val.vStr "e")] [("firstName", "first_name")] =
      Except.ok { setCols := "\"email\"=$1", values := [Val.vStr "e"] } :=
  ⟨(fieldMapper_spec [("firstName", "first_name")] "firstName" "first_name" (Val.vStr "P")).1
      rfl (by decide),
   (fieldMapper_spec [("f", "")] "f" "" (Val.vStr "v")).2.1 rfl,
   (fieldMapper_spec [("firstName", "first_name")] "email" "" (Val.vStr "e")).2.2 rfl⟩

/-- C2 counterexample: with company "acme" already stored, a duplicate
Company.create fails with the BadRequestError class (the class the spec
calls BadInput), not with a Conflict-class error; likewise User.register
with a taken username.  The state is untouched, so only the error class
part of the claim fails. -/
theorem create_duplicate_conflict_counterexample :
    failsWithConflict
      (Company.create
        { handle := "acme", name := "Acme", description := "d",
          numEmployees := some 10, logoUrl := none }
        { companies := [{ handle := "acme", name := "Acme", description := "d",
                          numEmployees := some 10, logoUrl := none }],
          jobs := [], users := [], applications := [] }).1 = false ∧
    (Company.create
        { handle := "acme", name := "Acme", description := "d",
          numEmployees := some 10, logoUrl := none }
        { companies := [{ handle := "acme", name := "Acme", description := "d",
                          numEmployees := some 10, logoUrl := none }],
          jobs := [], users := [], applications := [] }).1 =
      Except.error (JoblyError.badRequestError "Duplicate company: acme") ∧
    failsWithConflict
      (User.register (fun s => s)
        { username := "bob", password := "pw", firstName := "B",
          lastName := "K", email := "e", isAdmin := false }
        { companies := [], jobs := [],
          users := [{ username := "bob", password := "pw", firstName := "B",
                      lastName := "K", email := "e", isAdmin := false }],
          applications := [] }).1 = false ∧
    (User.register (fun s => s)
        { username := "bob", password := "pw", firstName := "B",
          lastName := "K", email := "e", isAdmin := false }
        { companies := [], jobs := [],
          users := [{ username := "bob", password := "pw", firstName := "B",
                      lastName := "K", email := "e", isAdmin := false }],
          applications := [] }).1 =
      Except.error (JoblyError.badRequestError "Duplicate username: bob") := by
  refine ⟨rfl, ?_, rfl, ?_⟩ <;> rfl

/-- C2 amended: when the identity already resolves to a row at probe time,
Company.create and User.register fail with a BadRequestError naming the
duplicate (the same 400 class the spec calls BadInput; the source defines
no separate Conflict class) and insert nothing: the database state is
returned unchanged. -/
theorem create_duplicate_rejected (p : CompanyData) (rp : RegisterData)
    (hash : String → String) (db dbu : DB)
    (hc : (db.companies.find? (fun r => r.handle == p.handle)).isSome)
    (hu : (dbu.users.find? (fun u => u.username == rp.username)).isSome) :
    Company.create p db =
      (Except.error (JoblyError.badRequestError ("Duplicate company: " ++ p.handle)), db) ∧
    User.register hash rp dbu =
      (Except.error (JoblyError.badRequestError ("Duplicate username: " ++ rp.username)), dbu) := by
  constructor
  · cases hfind : db.companies.find? (fun r => r.handle == p.handle) with
    | none => rw [hfind] at hc; simp [Option.isSome] at hc
    | some r => simp [Company.create, hfind]
  · cases hfind : dbu.users.find? (fun u => u.username == rp.username) with
    | none => rw [hfind] at hu; simp [Option.isSome] at hu
    | some r => simp [User.register, hfind]

/-- Witness for C2 amended at the concrete duplicate states used in the
counterexample. -/
theorem create_duplicate_rejected_witness :
    Company.create
      { handle := "acme", name := "Acme", description := "d",
        numEmployees := some 10, logoUrl := none }
      { companies := [{ handle := "acme", name := "Acme", description := "d",
                        numEmployees := some 10, logoUrl := none }],
        jobs := [], users := [], applications := [] } =
      (Except.error (JoblyError.badRequestError ("Duplicate company: " ++ "acme")),
       { companies := [{ handle := "acme", name := "Acme", description := "d",
                         numEmployees := some 10, logoUrl := none }],
         jobs := [], users := [], applications := [] }) ∧
    User.register (fun s => s)
      { username := "bob", password := "pw", firstName := "B",
        lastName := "K", email := "e", isAdmin := false }
      { companies := [], jobs := [],
        users := [{ username := "bob", password := "pw", firstName := "B",
                    lastName := "K", email := "e", isAdmin := false }],
        applications := [] } =
      (Except.error (JoblyError.badRequestError ("Duplicate username: " ++ "bob")),
       { companies := [], jobs := [],
         users := [{ username := "bob", password := "pw", firstName := "B",
                     lastName := "K", email := "e", isAdmin := false }],
         applications := [] }) :=
  create_duplicate_rejected
    { handle := "acme", name := "Acme", description := "d",
      numEmployees := some 10, logoUrl := none }
    { username := "bob", password := "pw", firstName := "B",
      lastName := "K", email := "e", isAdmin := false }
    (fun s => s)
    { companies := [{ handle := "acme", name := "Acme", description := "d",
                      numEmployees := some 10, logoUrl := none }],
      jobs := [], users := [], applications := [] }
    { companies := [], jobs := [],
      users := [{ username := "bob", password := "pw", firstName := "B",
                  lastName := "K", email := "e", isAdmin := false }],
      applications := [] }
    (by rfl) (by rfl)

/-- C5: a criteria object whose minimum employee bound exceeds its maximum
bound makes Company.findAll fail with BadRequestError before any predicate
is emitted and before any statement reaches the database: the error is
produced for every database state, with no statement text built. -/
theorem company_findAll_min_gt_max_rejected (c : CompanyCriteria)
    (a b : Int) (db : DB)
    (hmin : c.minEmployees = some a) (hmax : c.maxEmployees = some b)
    (hab : b < a) :
    Company.findAllStatement c =
      Except.error (JoblyError.badRequestError "Min employees cannot be greater than max employees") ∧
    Company.findAll c db =
      Except.error (JoblyError.badRequestError "Min employees cannot be greater than max employees") := by
  have hgt : jsNumGt c.minEmployees c.maxEmployees = true := by
    rw [hmin, hmax]; simp [jsNumGt, hab]
  have hstmt : Company.findAllStatement c =
      Except.error (JoblyError.badRequestError "Min employees cannot be greater than max employees") := by
    simp only [Company.findAllStatement]
    rw [if_pos hgt]
  exact ⟨hstmt, by simp only [Company.findAll]; rw [hstmt]⟩

/-- Witness for C5 at minEmployees 5, maxEmployees 3, empty database. -/
theorem company_findAll_min_gt_max_rejected_witness :
    Company.findAllStatement { minEmployees := some 5, maxEmployees := some 3, name := none } =
      Except.error (JoblyError.badRequestError "Min employees cannot be greater than max employees") ∧
    Company.findAll { minEmployees := some 5, maxEmployees := some 3, name := none }
        { companies := [], jobs := [], users := [], applications := [] } =
      Except.error (JoblyError.badRequestError "Min employees cannot be greater than max employees") :=
  company_findAll_min_gt_max_rejected
    { minEmployees := some 5, maxEmployees := some 3, name := none } 5 3
    { companies := [], jobs := [], users := [], applications := [] }
    rfl rfl (by decide)

/-- C6 counterexample: with hasEquity present as false and title present
as the empty string, two recognized keys are present (not undefined) yet
zero predicates are appended, where the claim requires one predicate per
present key (two). -/
theorem job_filters_present_key_counterexample :
    Job.findAllFilters { minSalary := none, hasEquity := some false, title := some "" } =
      ([], []) ∧
    (Job.findAllFilters { minSalary := none, hasEquity := some false, title := some "" }).1.length ≠ 2 := by
  exact ⟨rfl, by decide⟩

/-- C6 amended: minSalary present (not undefined) appends exactly one
predicate and one positional parameter; hasEquity appends its
parameterless predicate exactly when it equals true (present-but-false
appends nothing); title appends exactly one predicate and one parameter
exactly when it is a truthy (non-empty) string; nothing else is appended,
and parameter positions follow the evaluation order. -/
theorem job_filters_spec (c : JobCriteria) :
    Job.findAllFilters c =
      ((match c.minSalary with | some _ => ["salary >= $1"] | none => []) ++
       (if c.hasEquity == some true then ["equity > 0"] else []) ++
       (if jsStrTruthy c.title then
          ["title ILIKE $" ++
            toString ((match c.minSalary with | some _ => 1 | none => 0) + 1)]
        else []),
       (match c.minSalary with | some m => [Val.vInt m] | none => []) ++
       (if jsStrTruthy c.title then [Val.vStr ("%" ++ (c.title.getD "") ++ "%")]
        else [])) := by
  rcases c with ⟨ms, he, t⟩
  simp only [Job.findAllFilters]
  cases hb : (he == some true) <;> cases ms <;> cases ht : jsStrTruthy t <;>
    simp [hb, ht] <;> rfl

/-- Successful-builder equation shared by the update embeddings. -/
theorem sqlForPartialUpdate_ok_of_ne_nil (data : List (String × Val))
    (tbl : List (String × String)) (h : data ≠ []) :
    sqlForPartialUpdate data tbl =
      Except.ok
        { setCols := String.intercalate ", "
            ((data.map Prod.fst).enum.map
              (fun p => "\"" ++ jsLookupOr tbl p.2 ++ "\"=$" ++ toString (p.1 + 1))),
          values := data.map Prod.snd } := by
  have hlen : (data.map Prod.fst).length ≠ 0 := by
    simpa [List.length_eq_zero, List.map_eq_nil_iff] using h
  simp only [sqlForPartialUpdate]
  rw [if_neg hlen]

/-- The password prelude keeps a non-empty payload non-empty. -/
theorem userHashData_ne_nil (hash : String → String)
    (data : List (String × Val)) (h : data ≠ []) :
    userHashData hash data ≠ [] := by
  unfold userHashData
  split
  · intro hx
    exact h (List.map_eq_nil_iff.mp hx)
  · exact h

/-- The password prelude keeps the payload length. -/
theorem userHashData_length (hash : String → String)
    (data : List (String × Val)) :
    (userHashData hash data).length = data.length := by
  unfold userHashData
  split <;> simp

/-- C7: for every non-empty payload, each entity update binds the identity
predicate at placeholder values.length + 1 (data.length assignments come
first), passes the identity value as the final element of the bound
parameter list, and fails with NotFoundError exactly when the identity
matches zero rows. -/
theorem update_identity_placeholder_spec (id : Int) (handle username : String)
    (hash : String → String) (data : List (String × Val)) (db1 db2 db3 : DB)
    (h : data ≠ []) :
    (∃ sc, Job.updateStatement id data =
      Except.ok (jobUpdateQuerySql sc ("$" ++ toString (data.length + 1)),
                 data.map Prod.snd ++ [Val.vInt id])) ∧
    (∃ sc, Company.updateStatement handle data =
      Except.ok (companyUpdateQuerySql sc ("$" ++ toString (data.length + 1)),
                 data.map Prod.snd ++ [Val.vStr handle])) ∧
    (∃ sc, User.updateStatement hash username data =
      Except.ok (userUpdateQuerySql sc ("$" ++ toString (data.length + 1)),
                 (userHashData hash data).map Prod.snd ++ [Val.vStr username])) ∧
    ((∃ m, (Job.update id data db1).1 = Except.error (JoblyError.notFoundError m)) ↔
      db1.jobs.filter (fun r => r.id == id) = []) ∧
    ((∃ m, (Company.update handle data db2).1 = Except.error (JoblyError.notFoundError m)) ↔
      db2.companies.filter (fun r => r.handle == handle) = []) ∧
    ((∃ m, (User.update hash username data db3).1 = Except.error (JoblyError.notFoundError m)) ↔
      db3.users.filter (fun r => r.username == username) = []) := by
  have hokj := sqlForPartialUpdate_ok_of_ne_nil data jobJsToSql h
  have hokc := sqlForPartialUpdate_ok_of_ne_nil data companyJsToSql h
  have hoku := sqlForPartialUpdate_ok_of_ne_nil (userHashData hash data) userJsToSql
    (userHashData_ne_nil hash data h)
  refine
    ⟨⟨String.intercalate ", " ((data.map Prod.fst).enum.map
        (fun p => "\"" ++ jsLookupOr jobJsToSql p.2 ++ "\"=$" ++ toString (p.1 + 1))), ?_⟩,
     ⟨String.intercalate ", " ((data.map Prod.fst).enum.map
        (fun p => "\"" ++ jsLookupOr companyJsToSql p.2 ++ "\"=$" ++ toString (p.1 + 1))), ?_⟩,
     ⟨String.intercalate ", " (((userHashData hash data).map Prod.fst).enum.map
        (fun p => "\"" ++ jsLookupOr userJsToSql p.2 ++ "\"=$" ++ toString (p.1 + 1))), ?_⟩,
     ?_, ?_, ?_⟩
  · simp [Job.updateStatement, hokj, List.length_map]
  · simp [Company.updateStatement, hokc, List.length_map]
  · simp [User.updateStatement, hoku, List.length_map, userHashData_length]
  · cases hfil : db1.jobs.filter (fun r => r.id == id) with
    | nil => simp [Job.update, hokj, hfil]
    | cons r rest => simp [Job.update, hokj, hfil]
  · cases hfil : db2.companies.filter (fun r => r.handle == handle) with
    | nil => simp [Company.update, hokc, hfil]
    | cons r rest => simp [Company.update, hokc, hfil]
  · cases hfil : db3.users.filter (fun r => r.username == username) with
    | nil => simp [User.update, hoku, hfil]
    | cons r rest => simp [User.update, hoku, hfil]

/-- Witness for C7 at a one-field payload and an empty database. -/
theorem update_identity_placeholder_spec_witness :
    (∃ sc, Job.updateStatement 7 [("title", Val.vStr "x")] =
      Except.ok (jobUpdateQuerySql sc "$2", [Val.vStr "x", Val.vInt 7])) ∧
    (∃ sc, Company.updateStatement "acme" [("title", Val.vStr "x")] =
      Except.ok (companyUpdateQuerySql sc "$2", [Val.vStr "x", Val.vStr "acme"])) ∧
    (∃ sc, User.updateStatement (fun s => s) "bob" [("title", Val.vStr "x")] =
      Except.ok (userUpdateQuerySql sc "$2", [Val.vStr "x", Val.vStr "bob"])) ∧
    ((∃ m, (Job.update 7 [("title", Val.vStr "x")]
        { companies := [], jobs := [], users := [], applications := [] }).1 =
          Except.error (JoblyError.notFoundError m)) ↔
      ({ companies := [], jobs := [], users := [], applications := [] } : DB).jobs.filter
        (fun r => r.id == 7) = []) ∧
    ((∃ m, (Company.update "acme" [("title", Val.vStr "x")]
        { companies := [], jobs := [], users := [], applications := [] }).1 =
          Except.error (JoblyError.notFoundError m)) ↔
      ({ companies := [], jobs := [], users := [], applications := [] } : DB).companies.filter
        (fun r => r.handle == "acme") = []) ∧
    ((∃ m, (User.update (fun s => s) "bob" [("title", Val.vStr "x")]
        { companies := [], jobs := [], users := [], applications := [] }).1 =
          Except.error (JoblyError.notFoundError m)) ↔
      ({ companies := [], jobs := [], users := [], applications := [] } : DB).users.filter
        (fun r => r.username == "bob") = []) :=
  update_identity_placeholder_spec 7 "acme" "bob" (fun s => s)
    [("title", Val.vStr "x")]
    { companies := [], jobs := [], users := [], applications := [] }
    { companies := [], jobs := [], users := [], applications := [] }
    { companies := [], jobs := [], users := [], applications := [] }
    (by simp)

/-- C8: a missing posting fails with NotFoundError naming the job (before
the account probe: the account state is irrelevant) and inserts nothing;
a present posting with a missing account fails with NotFoundError naming
the username and inserts nothing; when both exist the association row is
inserted unconditionally, with no duplicate-association probe (the
equation holds whatever applications already contains). -/
theorem applyToJob_spec (username : String) (jobId : Int) (db : DB) :
    (db.jobs.find? (fun r => r.id == jobId) = none →
      User.applyToJob username jobId db =
        (Except.error (JoblyError.notFoundError ("No job: " ++ toString jobId)), db)) ∧
    ((∃ j, db.jobs.find? (fun r => r.id == jobId) = some j) →
      db.users.find? (fun u => u.username == username) = none →
      User.applyToJob username jobId db =
        (Except.error (JoblyError.notFoundError ("No username: " ++ username)), db)) ∧
    ((∃ j, db.jobs.find? (fun r => r.id == jobId) = some j) →
      (∃ u, db.users.find? (fun u => u.username == username) = some u) →
      User.applyToJob username jobId db =
        (Except.ok (), { db with applications := db.applications ++ [(jobId, username)] })) := by
  refine ⟨fun hj => ?_, fun hj hu => ?_, fun hj hu => ?_⟩
  · simp [User.applyToJob, hj]
  · obtain ⟨j, hj⟩ := hj
    simp [User.applyToJob, hj, hu]
  · obtain ⟨j, hj⟩ := hj
    obtain ⟨u, hu⟩ := hu
    simp [User.applyToJob, hj, hu]

/-- Witness for C8: missing posting on an empty database, and both-exist
insertion on a database that already holds the same association pair
(showing the duplicate is inserted again without any probe). -/
theorem applyToJob_spec_witness :
    User.applyToJob "bob" 7
      { companies := [], jobs := [], users := [], applications := [] } =
      (Except.error (JoblyError.notFoundError ("No job: " ++ toString (7 : Int))),
       { companies := [], jobs := [], users := [], applications := [] }) ∧
    User.applyToJob "bob" 7
      { companies := [],
        jobs := [{ id := 7, title := "t", salary := none, equity := none,
                   companyHandle := "acme" }],
        users := [{ username := "bob", password := "h", firstName := "B",
                    lastName := "K", email := "e", isAdmin := false }],
        applications := [(7, "bob")] } =
      (Except.ok (),
       { companies := [],
         jobs := [{ id := 7, title := "t", salary := none, equity := none,
                    companyHandle := "acme" }],
         users := [{ username := "bob", password := "h", firstName := "B",
                     lastName := "K", email := "e", isAdmin := false }],
         applications := [(7, "bob"), (7, "bob")] }) :=
  ⟨(applyToJob_spec "bob" 7
      { companies := [], jobs := [], users := [], applications := [] }).1 rfl,
   (applyToJob_spec "bob" 7
      { companies := [],
        jobs := [{ id := 7, title := "t", salary := none, equity := none,
                   companyHandle := "acme" }],
        users := [{ username := "bob", password := "h", firstName := "B",
                    lastName := "K", email := "e", isAdmin := false }],
        applications := [(7, "bob")] }).2.2
     ⟨{ id := 7, title := "t", salary := none, equity := none,
        companyHandle := "acme" }, rfl⟩
     ⟨{ username := "bob", password := "h", firstName := "B",
        lastName := "K", email := "e", isAdmin := false }, rfl⟩⟩

/-- Deleting the password property removes the key from the record. -/
theorem password_not_in_filtered (l : List (String × Val)) :
    "password" ∉ (l.filter (fun kv => !(kv.1 == "password"))).map Prod.fst := by
  intro hmem
  simp only [List.mem_map] at hmem
  obtain ⟨kv, hkv, hfst⟩ := hmem
  rw [List.mem_filter] at hkv
  have hkeep := hkv.2
  rw [hfst] at hkeep
  simp at hkeep

/-- C9: every successful Account write path (register, authenticate,
update) returns a record without the password key, whatever the input
payload held. -/
theorem secret_never_returned (hash : String → String) (rp : RegisterData)
    (username password : String) (data : List (String × Val))
    (db1 db2 db3 : DB) :
    (∀ r, (User.register hash rp db1).1 = Except.ok r →
      "password" ∉ r.map Prod.fst) ∧
    (∀ r, User.authenticate hash username password db2 = Except.ok r →
      "password" ∉ r.map Prod.fst) ∧
    (∀ r, (User.update hash username data db3).1 = Except.ok r →
      "password" ∉ r.map Prod.fst) := by
  refine ⟨fun r hr => ?_, fun r hr => ?_, fun r hr => ?_⟩
  · cases hfind : db1.users.find? (fun u => u.username == rp.username) with
    | some u => simp [User.register, hfind] at hr
    | none =>
      simp only [User.register, hfind] at hr
      injection hr with hr
      rw [← hr]
      simp [userPublicRecord]
  · cases hfind : db2.users.find? (fun u => u.username == username) with
    | none => simp [User.authenticate, hfind] at hr
    | some u =>
      by_cases hpw : u.password == hash password
      · simp only [User.authenticate, hfind, hpw, if_pos] at hr
        injection hr with hr
        rw [← hr]
        exact password_not_in_filtered (userFullRecord u)
      · simp [User.authenticate, hfind, hpw] at hr
  · cases hsp : sqlForPartialUpdate (userHashData hash data) userJsToSql with
    | error e => simp [User.update, hsp] at hr
    | ok u =>
      cases hfil : db3.users.filter (fun r2 => r2.username == username) with
      | nil => simp [User.update, hsp, hfil] at hr
      | cons r0 rest =>
        simp only [User.update, hsp, hfil] at hr
        injection hr with hr
        rw [← hr]
        exact password_not_in_filtered
          (userPublicRecord
            (((userHashData hash data).map
                (fun kv => (jsLookupOr userJsToSql kv.1, kv.2))).foldl setUserField r0))

/-- Witness for C9: the record returned by a successful register on an
empty database has no password key. -/
theorem secret_never_returned_witness :
    "password" ∉
      ([("username", Val.vStr "bob"), ("firstName", Val.vStr "B"),
        ("lastName", Val.vStr "K"), ("email", Val.vStr "e"),
        ("isAdmin", Val.vBool false)].map Prod.fst) :=
  (secret_never_returned (fun s => s)
    { username := "bob", password := "pw", firstName := "B", lastName := "K",
      email := "e", isAdmin := false }
    "bob" "pw" []
    { companies := [], jobs := [], users := [], applications := [] }
    { companies := [], jobs := [], users := [], applications := [] }
    { companies := [], jobs := [], users := [], applications := [] }).1
    [("username", Val.vStr "bob"), ("firstName", Val.vStr "B"),
     ("lastName", Val.vStr "K"), ("email", Val.vStr "e"),
     ("isAdmin", Val.vBool false)] rfl

/-- C10: whenever the id resolves to a job row, Job.get succeeds with a
record that has no companyHandle key and whose company property is the
first row of the secondary read on the companies table (as a nested
object; undefined when the handle matches no company). -/
theorem job_get_company_hydration (id : Int) (j : JobRow) (db : DB)
    (h : db.jobs.find? (fun r => r.id == id) = some j) :
    ∃ record, Job.get id db = Except.ok record ∧
      "companyHandle" ∉ record.map Prod.fst ∧
      record.lookup "company" = some
        (match ((db.companies.filter (fun c => c.handle == j.companyHandle)).map companyRecord).head? with
         | some cr => Val.vObj cr
         | none => Val.vUndef) := by
  simp only [Job.get, h, jobRecord]
  refine ⟨_, rfl, ?_, ?_⟩
  · simp
  · cases hh : ((db.companies.filter (fun c => c.handle == j.companyHandle)).map companyRecord).head? with
    | none => simp [hh, List.lookup]
    | some cr => simp [hh, List.lookup]

/-- Witness for C10 on a database holding one job owned by one company. -/
theorem job_get_company_hydration_witness :
    ∃ record,
      Job.get 7
        { companies := [{ handle := "acme", name := "Acme", description := "d",
                          numEmployees := some 10, logoUrl := none }],
          jobs := [{ id := 7, title := "t", salary := some 1, equity := none,
                     companyHandle := "acme" }],
          users := [], applications := [] } = Except.ok record ∧
      "companyHandle" ∉ record.map Prod.fst ∧
      record.lookup "company" = some
        (match ((({ companies := [{ handle := "acme", name := "Acme", description := "d",
                                    numEmployees := some 10, logoUrl := none }],
                    jobs := [{ id := 7, title := "t", salary := some 1, equity := none,
                               companyHandle := "acme" }],
                    users := [], applications := [] } : DB).companies.filter
                  (fun c => c.handle == "acme")).map companyRecord).head? with
         | some cr => Val.vObj cr
         | none => Val.vUndef) :=
  job_get_company_hydration 7
    { id := 7, title := "t", salary := some 1, equity := none, companyHandle := "acme" }
    { companies := [{ handle := "acme", name := "Acme", description := "d",
                      numEmployees := some 10, logoUrl := none }],
      jobs := [{ id := 7, title := "t", salary := some 1, equity := none,
                 companyHandle := "acme" }],
      users := [], applications := [] }
    rfl
